import Mathlib

/-!
Shallow embedding of the date-normalization, slot-filtering and
configuration-validation logic of `check_availability.py`
(appointment monitor for a booking site).

The Python code is embedded at the level of character lists:
`datetime.strptime` for the five numeric formats used by the script is
modelled by `p_dmY`, `p_dmy`, `p_dmY2`, `p_dmy2`, `p_Ymd` (mirroring the
CPython `_strptime` regexes and the `datetime` range validation), the
textual branch mirrors the regex search and the month dictionary, and
`filtrar_horarios_anteriores` mirrors the filtering loop.
-/

namespace RedeDor

/-- Python whitespace class for `str.strip` and the regex class `\s`
(ASCII part, which is all the program ever meets). -/
def pyWS (c : Char) : Bool :=
  c = ' ' || c = '\t' || c = '\n' || c = '\r' || c = '\x0b' || c = '\x0c'

/-- Python `str.lower` restricted to ASCII letters plus the uppercase
accented letters of Portuguese; all other characters are fixed. -/
def pyLower (c : Char) : Char :=
  if 'A' ≤ c && c ≤ 'Z' then Char.ofNat (c.toNat + 32)
  else if c = 'Ç' then 'ç'
  else if c = 'Ã' then 'ã'
  else if c = 'Á' then 'á'
  else if c = 'À' then 'à'
  else if c = 'Â' then 'â'
  else if c = 'É' then 'é'
  else if c = 'Ê' then 'ê'
  else if c = 'Í' then 'í'
  else if c = 'Ó' then 'ó'
  else if c = 'Ô' then 'ô'
  else if c = 'Õ' then 'õ'
  else if c = 'Ú' then 'ú'
  else c

/-- ASCII digit test (the regex class `\d` as the program meets it). -/
def isDigitC (c : Char) : Bool := '0' ≤ c && c ≤ '9'

/-- Value of an ASCII digit character. -/
def digitVal (c : Char) : Nat := c.toNat - 48

/-- The decimal digit character for values below ten. -/
def digitChar : Nat → Char
  | 0 => '0' | 1 => '1' | 2 => '2' | 3 => '3' | 4 => '4'
  | 5 => '5' | 6 => '6' | 7 => '7' | 8 => '8' | 9 => '9'
  | _ => '*'

/-- Python `str.strip`: drop whitespace from both ends. -/
def pyStrip (cs : List Char) : List Char :=
  ((cs.dropWhile pyWS).reverse.dropWhile pyWS).reverse

/-- Helper for splitting a character list on a separator character. -/
def splitOnAux (c : Char) : List Char → List Char → List (List Char)
  | [], acc => [acc.reverse]
  | x :: xs, acc =>
    if x = c then acc.reverse :: splitOnAux c xs []
    else splitOnAux c xs (x :: acc)

/-- Split a character list on a separator character (like `str.split`). -/
def splitOn1 (c : Char) (cs : List Char) : List (List Char) :=
  splitOnAux c cs []

/-- A calendar date as produced by Python `datetime.date`. -/
structure Date where
  year : Nat
  month : Nat
  day : Nat
deriving DecidableEq, Repr

/-- Gregorian leap-year rule (as in Python `calendar`/`datetime`). -/
def isLeap (y : Nat) : Bool := y % 4 = 0 && (y % 100 ≠ 0 || y % 400 = 0)

/-- Number of days of a month (month numbers 1..12). -/
def daysInMonth (y m : Nat) : Nat :=
  if m = 2 then (if isLeap y then 29 else 28)
  else if m = 4 ∨ m = 6 ∨ m = 9 ∨ m = 11 then 30
  else 31

/-- `datetime(year, month, day)`: succeeds exactly when the components
form a real calendar date within Python's `MINYEAR..MAXYEAR` range;
otherwise `datetime` raises `ValueError`, modelled as `none`. -/
def mkDate (y m d : Nat) : Option Date :=
  if 1 ≤ y ∧ y ≤ 9999 ∧ 1 ≤ m ∧ m ≤ 12 ∧ 1 ≤ d ∧ d ≤ daysInMonth y m then
    some ⟨y, m, d⟩
  else none

/-- Strict order on calendar dates (Python `date.__lt__`). -/
def dateLt (a b : Date) : Bool :=
  a.year < b.year ||
    (a.year = b.year &&
      (a.month < b.month || (a.month = b.month && a.day < b.day)))

/-- All characters are ASCII digits. -/
def allDigits (cs : List Char) : Bool := cs.all isDigitC

/-- Value of a digit string, most significant first. -/
def digitsVal (cs : List Char) : Nat :=
  cs.foldl (fun a c => a * 10 + digitVal c) 0

/-- CPython `_strptime` directive `%d`, matched against a whole field:
the regex `3[01]|[12]\d|0[1-9]|[1-9]`, i.e. one digit `1..9` or two
digits with value `01..31`. -/
def matchDay : List Char → Option Nat
  | [c] => if isDigitC c && digitVal c ≥ 1 then some (digitVal c) else none
  | [c1, c2] =>
    if isDigitC c1 && isDigitC c2 then
      let v := digitVal c1 * 10 + digitVal c2
      if 1 ≤ v ∧ v ≤ 31 then some v else none
    else none
  | _ => none

/-- CPython `_strptime` directive `%m`: the regex `1[0-2]|0[1-9]|[1-9]`. -/
def matchMonth : List Char → Option Nat
  | [c] => if isDigitC c && digitVal c ≥ 1 then some (digitVal c) else none
  | [c1, c2] =>
    if isDigitC c1 && isDigitC c2 then
      let v := digitVal c1 * 10 + digitVal c2
      if 1 ≤ v ∧ v ≤ 12 then some v else none
    else none
  | _ => none

/-- CPython `_strptime` directive `%Y`: exactly four digits. -/
def matchYear4 (cs : List Char) : Option Nat :=
  if cs.length = 4 ∧ allDigits cs then some (digitsVal cs) else none

/-- CPython `_strptime` directive `%y`: exactly two digits, resolved by
the century pivot used by `_strptime` (`00..68 → 2000..2068`,
`69..99 → 1969..1999`). -/
def matchYear2 (cs : List Char) : Option Nat :=
  if cs.length = 2 ∧ allDigits cs then
    let v := digitsVal cs
    some (if v ≤ 68 then 2000 + v else 1900 + v)
  else none

/-- `datetime.strptime(s, "%d/%m/%Y")`. -/
def p_dmY (cs : List Char) : Option Date :=
  match splitOn1 '/' cs with
  | [a, b, c] =>
    (matchDay a).bind fun d =>
      (matchMonth b).bind fun m =>
        (matchYear4 c).bind fun y => mkDate y m d
  | _ => none

/-- `datetime.strptime(s, "%d/%m/%y")`. -/
def p_dmy (cs : List Char) : Option Date :=
  match splitOn1 '/' cs with
  | [a, b, c] =>
    (matchDay a).bind fun d =>
      (matchMonth b).bind fun m =>
        (matchYear2 c).bind fun y => mkDate y m d
  | _ => none

/-- `datetime.strptime(s, "%d-%m-%Y")`. -/
def p_dmY2 (cs : List Char) : Option Date :=
  match splitOn1 '-' cs with
  | [a, b, c] =>
    (matchDay a).bind fun d =>
      (matchMonth b).bind fun m =>
        (matchYear4 c).bind fun y => mkDate y m d
  | _ => none

/-- `datetime.strptime(s, "%d-%m-%y")`. -/
def p_dmy2 (cs : List Char) : Option Date :=
  match splitOn1 '-' cs with
  | [a, b, c] =>
    (matchDay a).bind fun d =>
      (matchMonth b).bind fun m =>
        (matchYear2 c).bind fun y => mkDate y m d
  | _ => none

/-- `datetime.strptime(s, "%Y-%m-%d")`. -/
def p_Ymd (cs : List Char) : Option Date :=
  match splitOn1 '-' cs with
  | [a, b, c] =>
    (matchYear4 a).bind fun y =>
      (matchMonth b).bind fun m =>
        (matchDay c).bind fun d => mkDate y m d
  | _ => none

/-- The ordered format list
`formatos = ["%d/%m/%Y", "%d/%m/%y", "%d-%m-%Y", "%d-%m-%y", "%Y-%m-%d"]`. -/
def formatos : List (List Char → Option Date) :=
  [p_dmY, p_dmy, p_dmY2, p_dmy2, p_Ymd]

/-- The `for formato in formatos: try ... break` loop: first success wins. -/
def firstSuccess : List (List Char → Option Date) → List Char → Option Date
  | [], _ => none
  | f :: fs, cs =>
    match f cs with
    | some d => some d
    | none => firstSuccess fs cs

/-- Stage 1 of the normalizer: the numeric-format loop. -/
def tryNumeric (cs : List Char) : Option Date := firstSuccess formatos cs

/-- The regex character class `[a-zçã]` of the textual date pattern. -/
def isMonthChar (c : Char) : Bool :=
  ('a' ≤ c && c ≤ 'z') || c = 'ç' || c = 'ã'

/-- Match `(?:de\s+)?([a-zçã]+)` at the head of the input, with the
backtracking the regex engine performs: the optional `de\s+` is taken
greedily, falling back to matching the word group directly when taking
it leaves nothing for `[a-zçã]+`. Returns the captured month word. -/
def matchWordPart (cs : List Char) : Option (List Char) :=
  match cs with
  | 'd' :: 'e' :: c :: rest =>
    if pyWS c then
      let w := (rest.dropWhile pyWS).takeWhile isMonthChar
      if w.isEmpty then
        let w2 := cs.takeWhile isMonthChar
        if w2.isEmpty then none else some w2
      else some w
    else
      let w := cs.takeWhile isMonthChar
      if w.isEmpty then none else some w
  | _ =>
    let w := cs.takeWhile isMonthChar
    if w.isEmpty then none else some w

/-- Match `\s+(?:de\s+)?([a-zçã]+)` at the head of the input. -/
def matchSpaceWord (cs : List Char) : Option (List Char) :=
  match cs with
  | c :: rest =>
    if pyWS c then matchWordPart (rest.dropWhile pyWS) else none
  | [] => none

/-- Match the full pattern `(\d{1,2})\s+(?:de\s+)?([a-zçã]+)` anchored
at the head of the input: greedy `\d{1,2}` (a one-digit retry after a
two-digit match necessarily fails, since the following character would
again be a digit where `\s+` is required). -/
def matchAt (cs : List Char) : Option (Nat × List Char) :=
  match cs with
  | c1 :: c2 :: rest =>
    if isDigitC c1 then
      if isDigitC c2 then
        match matchSpaceWord rest with
        | some w => some (digitVal c1 * 10 + digitVal c2, w)
        | none => none
      else
        match matchSpaceWord (c2 :: rest) with
        | some w => some (digitVal c1, w)
        | none => none
    else none
  | _ => none

/-- `re.search` of the day/month pattern: leftmost successful start. -/
def reSearch : List Char → Option (Nat × List Char)
  | [] => none
  | c :: rest =>
    match matchAt (c :: rest) with
    | some r => some r
    | none => reSearch rest

/-- `s.split(",", 1)[1]`: everything after the first comma. -/
def afterComma : List Char → List Char
  | [] => []
  | c :: rest => if c = ',' then rest else afterComma rest

/-- The weekday-stripping step: when the text holds a comma, keep only
the (stripped) text after the first comma. -/
def textualPre (cs : List Char) : List Char :=
  if cs.contains ',' then pyStrip (afterComma cs) else cs

/-- The `meses_pt` dictionary in its insertion order: the twelve full
Portuguese month names followed by the twelve abbreviations. -/
def meses_pt : List (List Char × Nat) :=
  [((String.toList "janeiro"), 1), ((String.toList "fevereiro"), 2),
   ((String.toList "março"), 3), ((String.toList "abril"), 4),
   ((String.toList "maio"), 5), ((String.toList "junho"), 6),
   ((String.toList "julho"), 7), ((String.toList "agosto"), 8),
   ((String.toList "setembro"), 9), ((String.toList "outubro"), 10),
   ((String.toList "novembro"), 11), ((String.toList "dezembro"), 12),
   ((String.toList "jan"), 1), ((String.toList "fev"), 2),
   ((String.toList "mar"), 3), ((String.toList "abr"), 4),
   ((String.toList "mai"), 5), ((String.toList "jun"), 6),
   ((String.toList "jul"), 7), ((String.toList "ago"), 8),
   ((String.toList "set"), 9), ((String.toList "out"), 10),
   ((String.toList "nov"), 11), ((String.toList "dez"), 12)]

/-- `k` occurs at the head of `s`. -/
def startsWithL : List Char → List Char → Bool
  | [], _ => true
  | _ :: _, [] => false
  | a :: as, b :: bs => a = b && startsWithL as bs

/-- Python `k in s`: `k` occurs contiguously somewhere in `s`. -/
def hasSubstr (k : List Char) : List Char → Bool
  | [] => startsWithL k []
  | b :: bs => startsWithL k (b :: bs) || hasSubstr k bs

/-- `next((v for k, v in meses_pt.items() if k in mes_nome), None)`:
the first dictionary entry (in insertion order) whose key occurs as a
substring of the extracted month word. -/
def lookupMes (w : List Char) : Option Nat :=
  (meses_pt.find? fun kv => hasSubstr kv.1 w).map (fun kv => kv.2)

/-- Stage 2 of the normalizer: the textual branch run when every
numeric format failed. Strips a leading weekday segment at the first
comma, searches for the day/month pattern, resolves the month word via
`meses_pt` (substring containment), infers the year from `today`
(next year when the month is strictly before the current month), and
builds the date; `datetime` range failures yield `none`, which the
enclosing `except` turns into dropping the slot. -/
def parseTextual (today : Date) (cs0 : List Char) : Option Date :=
  let cs := textualPre cs0
  match reSearch cs with
  | none => none
  | some (dia, w) =>
    match lookupMes w with
    | none => none
    | some mes =>
      let ano := if mes < today.month then today.year + 1 else today.year
      mkDate ano mes dia

/-- The whole per-slot date normalizer of `filtrar_horarios_anteriores`:
lower-case and strip the raw text, try the numeric formats in order,
then fall back to the textual parser. -/
def normalizeData (today : Date) (s : String) : Option Date :=
  let cs := pyStrip (s.toList.map pyLower)
  match tryNumeric cs with
  | some d => some d
  | none => parseTextual today cs

/-- The `Horario` dataclass. -/
structure Horario where
  data : String
  hora : String
  texto_original : String
deriving DecidableEq, Repr

/-- `datetime.strptime(data_limite, "%Y-%m-%d")` applied to the raw
limit string (no lower-casing or stripping here). -/
def parseLimite (s : String) : Option Date := p_Ymd s.toList

/-- `MonitorConsulta.filtrar_horarios_anteriores`: an unparseable limit
yields the empty list; otherwise keep, in input order, exactly the
slots whose normalized date is strictly before the limit, dropping
slots whose date cannot be normalized. -/
def filtrar_horarios_anteriores (today : Date) (horarios : List Horario)
    (data_limite : String) : List Horario :=
  match parseLimite data_limite with
  | none => []
  | some lim =>
    horarios.filter fun h =>
      match normalizeData today h.data with
      | some d => dateLt d lim
      | none => false

/-- ASCII letter test: the regex class `[a-zA-Z]`. -/
def isAlphaC (c : Char) : Bool :=
  ('a' ≤ c && c ≤ 'z') || ('A' ≤ c && c ≤ 'Z')

/-- The regex class `[a-zA-Z0-9._%+-]` (local part of the email regex). -/
def isLocalChar (c : Char) : Bool :=
  isAlphaC c || isDigitC c || c = '.' || c = '_' || c = '%' || c = '+' || c = '-'

/-- The regex class `[a-zA-Z0-9.-]` (domain part of the email regex). -/
def isDomChar (c : Char) : Bool :=
  isAlphaC c || isDigitC c || c = '.' || c = '-'

/-- The tail `[a-zA-Z]{2,}` of the email regex. -/
def tldOk (t : List Char) : Bool := 2 ≤ t.length && t.all isAlphaC

/-- Scan for a split `prev ++ dot ++ tail` of the domain text matching
`[a-zA-Z0-9.-]+\.[a-zA-Z]{2,}`; `acc` holds the characters already
passed (reversed). -/
def domMatchAux (acc : List Char) : List Char → Bool
  | [] => false
  | c :: rest =>
    if c = '.' then
      (!acc.isEmpty && acc.all isDomChar && tldOk rest) || domMatchAux (c :: acc) rest
    else domMatchAux (c :: acc) rest

/-- The part of the email regex after the `@`. -/
def domMatch (cs : List Char) : Bool := domMatchAux [] cs

/-- Full match of `^[a-zA-Z0-9._%+-]+@[a-zA-Z0-9.-]+\.[a-zA-Z]{2,}$`
against the whole text, position of the single possible `@` first. -/
def emailCore (cs : List Char) : Bool :=
  let l := cs.takeWhile (fun c => c ≠ '@')
  match cs.dropWhile (fun c => c ≠ '@') with
  | '@' :: r => !l.isEmpty && l.all isLocalChar && domMatch r
  | _ => false

/-- `re.match(pattern, email)` with the pattern above: `$` also accepts
a position just before one final newline. -/
def reMatchEmail (cs : List Char) : Bool :=
  emailCore cs ||
    (match cs.getLast? with
     | some c => c = '\n' && emailCore cs.dropLast
     | none => false)

/-- Python truthiness of an optional string (`not x`). -/
def pyTruthy : Option String → Bool
  | none => false
  | some s => s ≠ ""

/-- `ConfigValidator.validar_email`. -/
def validar_email (email : Option String) : Bool :=
  match email with
  | none => false
  | some s => if s = "" then false else reMatchEmail s.toList

/-- `ConfigValidator.validar_data`: `strptime(data, "%Y-%m-%d")`. -/
def validar_data (s : String) : Bool := (p_Ymd s.toList).isSome

/-- The configuration constants the validator and the run inspect. -/
structure Config where
  email_remetente : Option String
  senha_email : Option String
  email_destino : String
  data_consulta_atual : String

/-- The `erros` list accumulated by `validar_configuracoes`. -/
def errosConfig (cfg : Config) : List String :=
  (if !pyTruthy cfg.email_remetente then [("EMAIL_SENDER missing")]
   else if !validar_email cfg.email_remetente then [("EMAIL_SENDER invalid")]
   else []) ++
  (if !pyTruthy cfg.senha_email then [("EMAIL_PASSWORD missing")] else []) ++
  (if !validar_email (some cfg.email_destino) then [("EMAIL_DESTINO invalid")] else []) ++
  (if !validar_data cfg.data_consulta_atual then [("DATA_CONSULTA_ATUAL invalid")] else [])

/-- `ConfigValidator.validar_configuracoes`. -/
def validar_configuracoes (cfg : Config) : Bool := (errosConfig cfg).isEmpty

/-- Observable outcome of one run of the script. -/
structure RunResult where
  exitCode : Nat
  scraperInvoked : Bool
  emailSent : Bool
deriving DecidableEq, Repr

/-- `MonitorConsulta.executar`, with the scraper's would-be result
passed in as an oracle: invalid configuration exits with code 1 before
the scraper runs; otherwise the scraper runs, and a notification is
attempted exactly when the filtered list is non-empty. -/
def executar (cfg : Config) (today : Date) (scraped : List Horario) : RunResult :=
  if !validar_configuracoes cfg then ⟨1, false, false⟩
  else if scraped.isEmpty then ⟨0, true, false⟩
  else
    let antes := filtrar_horarios_anteriores today scraped cfg.data_consulta_atual
    if antes.isEmpty then ⟨0, true, false⟩ else ⟨0, true, true⟩

/-- `main`: `MonitorConsulta.__init__` raises `ValueError` when sender
email or password is unset, which `main` turns into exit code 1;
a `sys.exit(1)` from `executar` (a `SystemExit`, not an `Exception`)
passes through `main` unchanged. -/
def main_run (cfg : Config) (today : Date) (scraped : List Horario) : RunResult :=
  if !pyTruthy cfg.email_remetente || !pyTruthy cfg.senha_email then ⟨1, false, false⟩
  else executar cfg today scraped

/-- Two-digit zero-padded decimal rendering (values below 100). -/
def pad2 (n : Nat) : List Char := [digitChar (n / 10), digitChar (n % 10)]

/-- Four-digit zero-padded decimal rendering (values below 10000). -/
def pad4 (n : Nat) : List Char :=
  [digitChar (n / 1000), digitChar (n / 100 % 10), digitChar (n / 10 % 10),
   digitChar (n % 10)]

/-- The `dd/mm/yyyy` string for a given year, month, day. -/
def renderDMY (y m d : Nat) : String :=
  ⟨pad2 d ++ '/' :: (pad2 m ++ '/' :: pad4 y)⟩

/-- The `dd/mm/yy` string for a given two-digit year, month, day. -/
def renderDMy (yy m d : Nat) : String :=
  ⟨pad2 d ++ '/' :: (pad2 m ++ '/' :: pad2 yy)⟩

/-! ## Theorems about the claims -/

/-- The character of a decimal digit is a digit character, evaluates
back to its value, and is untouched by lower-casing, whitespace
stripping and the two separator characters. -/
theorem digitChar_spec (k : Nat) (h : k < 10) :
    isDigitC (digitChar k) = true ∧ digitVal (digitChar k) = k ∧
    pyLower (digitChar k) = digitChar k ∧ pyWS (digitChar k) = false ∧
    digitChar k ≠ '/' ∧ digitChar k ≠ '-' := by
  interval_cases k <;> decide

theorem splitOnAux_notin (c : Char) {p : List Char} (rest acc : List Char)
    (hp : c ∉ p) :
    splitOnAux c (p ++ rest) acc = splitOnAux c rest (p.reverse ++ acc) := by
  induction p generalizing acc with
  | nil => simp
  | cons a t ih =>
    have ha : ¬(a = c) := fun h => hp (by simp [h])
    simp only [List.cons_append, splitOnAux, if_neg ha, List.append_eq]
    rw [ih _ (fun hm => hp (List.mem_cons_of_mem _ hm))]
    simp

theorem splitOnAux_notin_nil (c : Char) {p : List Char} (acc : List Char)
    (hp : c ∉ p) :
    splitOnAux c p acc = [(p.reverse ++ acc).reverse] := by
  have h := splitOnAux_notin c [] acc hp
  rw [List.append_nil] at h
  rw [h]
  rfl

theorem splitOn1_three (c : Char) {p1 p2 p3 : List Char}
    (h1 : c ∉ p1) (h2 : c ∉ p2) (h3 : c ∉ p3) :
    splitOn1 c (p1 ++ c :: (p2 ++ c :: p3)) = [p1, p2, p3] := by
  unfold splitOn1
  rw [splitOnAux_notin c _ _ h1]
  simp only [splitOnAux, if_pos, List.append_nil, List.reverse_reverse, ite_true]
  rw [splitOnAux_notin c _ _ h2]
  simp only [splitOnAux, if_pos, List.append_nil, List.reverse_reverse, ite_true]
  rw [splitOnAux_notin_nil c _ h3]
  simp

theorem slash_notin_pad2 {n : Nat} (h : n < 100) : '/' ∉ pad2 n := by
  simp only [pad2, List.mem_cons, List.not_mem_nil, or_false, not_or]
  exact ⟨fun he => (digitChar_spec (n / 10) (by omega)).2.2.2.2.1 he.symm,
         fun he => (digitChar_spec (n % 10) (by omega)).2.2.2.2.1 he.symm⟩

theorem slash_notin_pad4 {n : Nat} (h : n < 10000) : '/' ∉ pad4 n := by
  simp only [pad4, List.mem_cons, List.not_mem_nil, or_false, not_or]
  exact ⟨fun he => (digitChar_spec (n / 1000) (by omega)).2.2.2.2.1 he.symm,
         fun he => (digitChar_spec (n / 100 % 10) (by omega)).2.2.2.2.1 he.symm,
         fun he => (digitChar_spec (n / 10 % 10) (by omega)).2.2.2.2.1 he.symm,
         fun he => (digitChar_spec (n % 10) (by omega)).2.2.2.2.1 he.symm⟩

theorem pyStrip_eq_self {L : List Char} (h : ∀ x ∈ L, pyWS x = false) :
    pyStrip L = L := by
  unfold pyStrip
  have h1 : L.dropWhile pyWS = L := by
    cases L with
    | nil => rfl
    | cons a t =>
      rw [List.dropWhile_cons, h a (by simp)]
      simp
  rw [h1]
  have h2 : L.reverse.dropWhile pyWS = L.reverse := by
    cases hr : L.reverse with
    | nil => rfl
    | cons a t =>
      have ha : a ∈ L := by
        rw [← List.mem_reverse, hr]
        simp
      rw [List.dropWhile_cons, h a ha]
      simp
  rw [h2, List.reverse_reverse]

theorem pad2_no_ws {n : Nat} (h : n < 100) : ∀ x ∈ pad2 n, pyWS x = false := by
  intro x hx
  simp only [pad2, List.mem_cons, List.not_mem_nil, or_false] at hx
  rcases hx with hx | hx <;> subst hx
  · exact (digitChar_spec (n / 10) (by omega)).2.2.2.1
  · exact (digitChar_spec (n % 10) (by omega)).2.2.2.1

theorem pad4_no_ws {n : Nat} (h : n < 10000) :
    ∀ x ∈ pad4 n, pyWS x = false := by
  intro x hx
  simp only [pad4, List.mem_cons, List.not_mem_nil, or_false] at hx
  rcases hx with hx | hx | hx | hx <;> subst hx
  · exact (digitChar_spec (n / 1000) (by omega)).2.2.2.1
  · exact (digitChar_spec (n / 100 % 10) (by omega)).2.2.2.1
  · exact (digitChar_spec (n / 10 % 10) (by omega)).2.2.2.1
  · exact (digitChar_spec (n % 10) (by omega)).2.2.2.1

theorem map_pyLower_pad2 {n : Nat} (h : n < 100) :
    (pad2 n).map pyLower = pad2 n := by
  simp only [pad2, List.map_cons, List.map_nil,
    (digitChar_spec (n / 10) (by omega)).2.2.1,
    (digitChar_spec (n % 10) (by omega)).2.2.1]

theorem map_pyLower_pad4 {n : Nat} (h : n < 10000) :
    (pad4 n).map pyLower = pad4 n := by
  simp only [pad4, List.map_cons, List.map_nil,
    (digitChar_spec (n / 1000) (by omega)).2.2.1,
    (digitChar_spec (n / 100 % 10) (by omega)).2.2.1,
    (digitChar_spec (n / 10 % 10) (by omega)).2.2.1,
    (digitChar_spec (n % 10) (by omega)).2.2.1]

theorem triple_no_ws {p1 p2 p3 : List Char}
    (h1 : ∀ x ∈ p1, pyWS x = false) (h2 : ∀ x ∈ p2, pyWS x = false)
    (h3 : ∀ x ∈ p3, pyWS x = false) :
    ∀ x ∈ p1 ++ '/' :: (p2 ++ '/' :: p3), pyWS x = false := by
  intro x hx
  simp only [List.mem_append, List.mem_cons] at hx
  rcases hx with hx | hx | hx | hx | hx
  · exact h1 x hx
  · subst hx; rfl
  · exact h2 x hx
  · subst hx; rfl
  · exact h3 x hx

theorem triple_map_pyLower {p1 p2 p3 : List Char}
    (h1 : p1.map pyLower = p1) (h2 : p2.map pyLower = p2)
    (h3 : p3.map pyLower = p3) :
    (p1 ++ '/' :: (p2 ++ '/' :: p3)).map pyLower
      = p1 ++ '/' :: (p2 ++ '/' :: p3) := by
  have hs : pyLower '/' = '/' := rfl
  simp only [List.map_append, List.map_cons, h1, h2, h3, hs]

theorem matchDay_pad2 {d : Nat} (h1 : 1 ≤ d) (h2 : d ≤ 31) :
    matchDay (pad2 d) = some d := by
  have s1 := digitChar_spec (d / 10) (by omega)
  have s2 := digitChar_spec (d % 10) (by omega)
  have hv : digitVal (digitChar (d / 10)) * 10 + digitVal (digitChar (d % 10)) = d := by
    rw [s1.2.1, s2.2.1]
    omega
  simp only [pad2, matchDay, s1.1, s2.1, Bool.and_self, hv]
  exact if_pos (show 1 ≤ d ∧ d ≤ 31 from ⟨h1, h2⟩)

theorem matchMonth_pad2 {m : Nat} (h1 : 1 ≤ m) (h2 : m ≤ 12) :
    matchMonth (pad2 m) = some m := by
  have s1 := digitChar_spec (m / 10) (by omega)
  have s2 := digitChar_spec (m % 10) (by omega)
  have hv : digitVal (digitChar (m / 10)) * 10 + digitVal (digitChar (m % 10)) = m := by
    rw [s1.2.1, s2.2.1]
    omega
  simp only [pad2, matchMonth, s1.1, s2.1, Bool.and_self, hv]
  exact if_pos (show 1 ≤ m ∧ m ≤ 12 from ⟨h1, h2⟩)

theorem matchYear4_pad4 {y : Nat} (h : y ≤ 9999) :
    matchYear4 (pad4 y) = some y := by
  have s1 := digitChar_spec (y / 1000) (by omega)
  have s2 := digitChar_spec (y / 100 % 10) (by omega)
  have s3 := digitChar_spec (y / 10 % 10) (by omega)
  have s4 := digitChar_spec (y % 10) (by omega)
  have hv : digitsVal (pad4 y) = y := by
    simp only [pad4, digitsVal, List.foldl, s1.2.1, s2.2.1, s3.2.1, s4.2.1]
    omega
  have hlen : (pad4 y).length = 4 := rfl
  have hall : allDigits (pad4 y) = true := by
    simp only [pad4, allDigits, List.all_cons, List.all_nil, s1.1, s2.1, s3.1,
      s4.1, Bool.and_self]
  unfold matchYear4
  rw [if_pos ⟨hlen, hall⟩, hv]

theorem matchYear4_pad2 (n : Nat) : matchYear4 (pad2 n) = none := by
  unfold matchYear4
  rw [if_neg]
  intro hc
  exact absurd hc.1 (by simp [pad2])

theorem matchYear2_pad2 {v : Nat} (h : v ≤ 99) :
    matchYear2 (pad2 v) = some (if v ≤ 68 then 2000 + v else 1900 + v) := by
  have s1 := digitChar_spec (v / 10) (by omega)
  have s2 := digitChar_spec (v % 10) (by omega)
  have hv : digitsVal (pad2 v) = v := by
    simp only [pad2, digitsVal, List.foldl, s1.2.1, s2.2.1]
    omega
  have hlen : (pad2 v).length = 2 := rfl
  have hall : allDigits (pad2 v) = true := by
    simp only [pad2, allDigits, List.all_cons, List.all_nil, s1.1, s2.1,
      Bool.and_self]
  unfold matchYear2
  rw [if_pos ⟨hlen, hall⟩, hv]

theorem daysInMonth_le_31 (y m : Nat) : daysInMonth y m ≤ 31 := by
  unfold daysInMonth
  split_ifs <;> omega

theorem mkDate_eq_some {y m d : Nat}
    (h : 1 ≤ y ∧ y ≤ 9999 ∧ 1 ≤ m ∧ m ≤ 12 ∧ 1 ≤ d ∧ d ≤ daysInMonth y m) :
    mkDate y m d = some ⟨y, m, d⟩ := by
  unfold mkDate
  exact if_pos h

theorem p_dmY_render {y m d : Nat} (hy1 : 1 ≤ y) (hy2 : y ≤ 9999)
    (hm1 : 1 ≤ m) (hm2 : m ≤ 12) (hd1 : 1 ≤ d) (hd2 : d ≤ daysInMonth y m) :
    p_dmY (pad2 d ++ '/' :: (pad2 m ++ '/' :: pad4 y)) = some ⟨y, m, d⟩ := by
  have hd31 : d ≤ 31 := le_trans hd2 (daysInMonth_le_31 y m)
  unfold p_dmY
  rw [splitOn1_three '/' (slash_notin_pad2 (by omega))
    (slash_notin_pad2 (by omega)) (slash_notin_pad4 (by omega))]
  simp only [matchDay_pad2 hd1 hd31, matchMonth_pad2 hm1 hm2,
    matchYear4_pad4 hy2, Option.some_bind]
  exact mkDate_eq_some ⟨hy1, hy2, hm1, hm2, hd1, hd2⟩

theorem p_dmY_render2_none {yy m d : Nat} (h1 : 1 ≤ d) (h2 : d ≤ 31)
    (hyy : yy < 100) (hm : m < 100) :
    p_dmY (pad2 d ++ '/' :: (pad2 m ++ '/' :: pad2 yy)) = none := by
  unfold p_dmY
  rw [splitOn1_three '/' (slash_notin_pad2 (by omega))
    (slash_notin_pad2 hm) (slash_notin_pad2 hyy)]
  simp only [matchDay_pad2 h1 h2, matchYear4_pad2, Option.some_bind]
  cases hmm : matchMonth (pad2 m) <;> simp

theorem p_dmy_render {yy m d : Nat} (hy : yy ≤ 99) (hm1 : 1 ≤ m) (hm2 : m ≤ 12)
    (hd1 : 1 ≤ d)
    (hd2 : d ≤ daysInMonth (if yy ≤ 68 then 2000 + yy else 1900 + yy) m) :
    p_dmy (pad2 d ++ '/' :: (pad2 m ++ '/' :: pad2 yy))
      = some ⟨if yy ≤ 68 then 2000 + yy else 1900 + yy, m, d⟩ := by
  have hd31 : d ≤ 31 := le_trans hd2 (daysInMonth_le_31 _ m)
  unfold p_dmy
  rw [splitOn1_three '/' (slash_notin_pad2 (by omega))
    (slash_notin_pad2 (by omega)) (slash_notin_pad2 (by omega))]
  simp only [matchDay_pad2 hd1 hd31, matchMonth_pad2 hm1 hm2,
    matchYear2_pad2 hy, Option.some_bind]
  exact mkDate_eq_some ⟨by split <;> omega, by split <;> omega, hm1, hm2, hd1, hd2⟩

/-- Claim C1: for the slot list
`[("11/03/2026","09:00"), ("10/03/2026","14:30"), ("12/03/2026","08:00")]`
and reference date `"2026-03-11"`, the filter returns exactly the single
slot `("10/03/2026","14:30")`: the slot equal to the reference date and
the later slot are both excluded (for every current date, which the
numeric formats never consult). -/
theorem C1_end_to_end_scenario (today : Date) :
    filtrar_horarios_anteriores today
      [⟨("11/03/2026"), ("09:00"), ("")⟩,
       ⟨("10/03/2026"), ("14:30"), ("")⟩,
       ⟨("12/03/2026"), ("08:00"), ("")⟩] ("2026-03-11")
      = [⟨("10/03/2026"), ("14:30"), ("")⟩] := rfl

/-- Claim C7: filtering is idempotent: applying the filter to its own
output, with the same reference date and the same current date, returns
that output unchanged. -/
theorem C7_filter_idempotent (today : Date) (hs : List Horario) (lim : String) :
    filtrar_horarios_anteriores today (filtrar_horarios_anteriores today hs lim) lim
      = filtrar_horarios_anteriores today hs lim := by
  unfold filtrar_horarios_anteriores
  cases hp : parseLimite lim with
  | none => simp
  | some limd => simp [List.filter_filter]

/-- Claim C5: the filter output is a subsequence of the input (order
preserved, slots returned unchanged); a slot is in the output exactly
when its date normalizes to a date strictly before the reference date;
and the time field has no influence on the decision: rewriting every
slot's time commutes with the filter. -/
theorem C5_stable_filter_date_only (today : Date) (hs : List Horario)
    (lim : String) (limd : Date) (h : parseLimite lim = some limd) :
    (filtrar_horarios_anteriores today hs lim).Sublist hs
  ∧ (∀ x, x ∈ filtrar_horarios_anteriores today hs lim ↔
      x ∈ hs ∧ ∃ d, normalizeData today x.data = some d ∧ dateLt d limd = true)
  ∧ (∀ t0, filtrar_horarios_anteriores today
        (hs.map fun x => ⟨x.data, t0, x.texto_original⟩) lim
      = (filtrar_horarios_anteriores today hs lim).map
          fun x => ⟨x.data, t0, x.texto_original⟩) := by
  simp only [filtrar_horarios_anteriores, h]
  refine ⟨List.filter_sublist hs, ?_, ?_⟩
  · intro x
    rw [List.mem_filter]
    cases hn : normalizeData today x.data with
    | none => simp [hn]
    | some d => simp [hn]
  · intro t0
    rw [List.filter_map]
    rfl

/-- Claim C6: a slot whose date text cannot be normalized is excluded
from the filter output while every other slot in the list is processed
normally; in particular `"amanhã"` (no pattern matches), `"31 de abril"`
and `"31/04/2026"` (day 31 in a 30-day month) normalize to nothing, for
every current date. -/
theorem C6_unparseable_slot_dropped (today : Date) (xs ys : List Horario)
    (h : Horario) (lim : String) (hbad : normalizeData today h.data = none) :
    filtrar_horarios_anteriores today (xs ++ h :: ys) lim
      = filtrar_horarios_anteriores today (xs ++ ys) lim
  ∧ normalizeData today ("amanhã") = none
  ∧ normalizeData today ("31 de abril") = none
  ∧ normalizeData today ("31/04/2026") = none := by
  refine ⟨?_, rfl, ?_, rfl⟩
  · unfold filtrar_horarios_anteriores
    cases hp : parseLimite lim with
    | none => rfl
    | some limd => simp [List.filter_append, List.filter_cons, hbad]
  · show mkDate (if 4 < today.month then today.year + 1 else today.year) 4 31 = none
    have h30 : daysInMonth (if 4 < today.month then today.year + 1 else today.year) 4 = 30 := rfl
    unfold mkDate
    rw [h30]
    simp

/-- Claim C8: when configuration validation fails — in particular when
the destination email does not match the email format — the run exits
with code 1 before any network activity: the scraper is never invoked
and no notification is attempted. Conversely a run with valid
configuration whose filter yields no earlier slot completes with exit
code 0 (scraper invoked, no notification). -/
theorem C8_exit_codes :
    (∀ cfg today scraped, validar_email (some cfg.email_destino) = false →
        main_run cfg today scraped = ⟨1, false, false⟩)
  ∧ (∀ cfg today scraped, validar_configuracoes cfg = true →
        filtrar_horarios_anteriores today scraped cfg.data_consulta_atual = [] →
        main_run cfg today scraped = ⟨0, true, false⟩) := by
  constructor
  · intro cfg today scraped hd
    have hv : validar_configuracoes cfg = false := by
      unfold validar_configuracoes errosConfig
      rw [hd]
      simp [List.isEmpty_iff]
    unfold main_run executar
    rw [hv]
    by_cases h1 : (!pyTruthy cfg.email_remetente || !pyTruthy cfg.senha_email) = true
    · rw [if_pos h1]
    · rw [if_neg h1]
      simp
  · intro cfg today scraped hv hfil
    have hparts : pyTruthy cfg.email_remetente = true ∧ pyTruthy cfg.senha_email = true := by
      unfold validar_configuracoes errosConfig at hv
      by_cases ha : pyTruthy cfg.email_remetente = true
      · by_cases hb : pyTruthy cfg.senha_email = true
        · exact ⟨ha, hb⟩
        · rw [Bool.not_eq_true] at hb
          rw [hb] at hv
          simp [List.isEmpty_iff] at hv
      · rw [Bool.not_eq_true] at ha
        rw [ha] at hv
        simp [List.isEmpty_iff] at hv
    unfold main_run executar
    simp [hparts.1, hparts.2, hv, hfil]

/-- Claim C2: every valid `dd/mm/yyyy` date string (four-digit year) is
normalized back to exactly that year, month and day; the numeric
patterns are tried in the fixed order `dd/mm/yyyy`, `dd/mm/yy`,
`dd-mm-yyyy`, `dd-mm-yy`, `yyyy-mm-dd`, and the first pattern that
succeeds determines the result. -/
theorem C2_valid_ddmmyyyy_roundtrip :
    (∀ (today : Date) (y m d : Nat), 1 ≤ y → y ≤ 9999 → 1 ≤ m → m ≤ 12 →
        1 ≤ d → d ≤ daysInMonth y m →
        normalizeData today (renderDMY y m d) = some ⟨y, m, d⟩)
  ∧ formatos = [p_dmY, p_dmy, p_dmY2, p_dmy2, p_Ymd]
  ∧ (∀ cs d, p_dmY cs = some d → tryNumeric cs = some d)
  ∧ (∀ cs, p_dmY cs = none →
        tryNumeric cs = firstSuccess [p_dmy, p_dmY2, p_dmy2, p_Ymd] cs) := by
  refine ⟨?_, rfl, ?_, ?_⟩
  · intro today y m d hy1 hy2 hm1 hm2 hd1 hd2
    simp only [normalizeData]
    have htl : (renderDMY y m d).toList
        = pad2 d ++ '/' :: (pad2 m ++ '/' :: pad4 y) := rfl
    have hd31 : d ≤ 31 := le_trans hd2 (daysInMonth_le_31 y m)
    rw [htl,
      triple_map_pyLower (map_pyLower_pad2 (by omega))
        (map_pyLower_pad2 (by omega)) (map_pyLower_pad4 (by omega)),
      pyStrip_eq_self (triple_no_ws (pad2_no_ws (by omega))
        (pad2_no_ws (by omega)) (pad4_no_ws (by omega)))]
    have hnum : tryNumeric (pad2 d ++ '/' :: (pad2 m ++ '/' :: pad4 y))
        = some ⟨y, m, d⟩ := by
      unfold tryNumeric formatos
      simp only [firstSuccess, p_dmY_render hy1 hy2 hm1 hm2 hd1 hd2]
    rw [hnum]
  · intro cs d h
    unfold tryNumeric formatos
    simp only [firstSuccess, h]
  · intro cs h
    unfold tryNumeric formatos
    conv_lhs => rw [firstSuccess]
    rw [h]

/-- Witness for C2 at a concrete valid date. -/
theorem C2_valid_ddmmyyyy_roundtrip_witness :
    normalizeData ⟨2026, 1, 1⟩ (renderDMY 2026 3 10) = some ⟨2026, 3, 10⟩ :=
  C2_valid_ddmmyyyy_roundtrip.1 ⟨2026, 1, 1⟩ 2026 3 10 (by decide) (by decide)
    (by decide) (by decide) (by decide) (by decide)

/-- Claim C3: two-digit years are resolved by the fixed century pivot of
`strptime` (`00..68` map to `20xx`, `69..99` to `19xx`); in particular
`"01/01/30"` normalizes into year 2030 and `"01/01/99"` into year 1999,
two different centuries. -/
theorem C3_century_pivot :
    (∀ (today : Date) (yy m d : Nat), yy ≤ 99 → 1 ≤ m → m ≤ 12 → 1 ≤ d →
        d ≤ daysInMonth (if yy ≤ 68 then 2000 + yy else 1900 + yy) m →
        normalizeData today (renderDMy yy m d)
          = some ⟨if yy ≤ 68 then 2000 + yy else 1900 + yy, m, d⟩)
  ∧ (∀ today, normalizeData today ("01/01/30") = some ⟨2030, 1, 1⟩)
  ∧ (∀ today, normalizeData today ("01/01/99") = some ⟨1999, 1, 1⟩)
  ∧ 2030 / 100 ≠ 1999 / 100 := by
  refine ⟨?_, fun t => rfl, fun t => rfl, by decide⟩
  intro today yy m d hyy hm1 hm2 hd1 hd2
  simp only [normalizeData]
  have htl : (renderDMy yy m d).toList
      = pad2 d ++ '/' :: (pad2 m ++ '/' :: pad2 yy) := rfl
  have hd31 : d ≤ 31 := le_trans hd2 (daysInMonth_le_31 _ m)
  rw [htl,
    triple_map_pyLower (map_pyLower_pad2 (by omega))
      (map_pyLower_pad2 (by omega)) (map_pyLower_pad2 (by omega)),
    pyStrip_eq_self (triple_no_ws (pad2_no_ws (by omega))
      (pad2_no_ws (by omega)) (pad2_no_ws (by omega)))]
  have hnum : tryNumeric (pad2 d ++ '/' :: (pad2 m ++ '/' :: pad2 yy))
      = some ⟨if yy ≤ 68 then 2000 + yy else 1900 + yy, m, d⟩ := by
    unfold tryNumeric formatos
    simp only [firstSuccess,
      @p_dmY_render2_none yy m d hd1 hd31 (by omega) (by omega),
      p_dmy_render hyy hm1 hm2 hd1 hd2]
  rw [hnum]

/-- Witness for C3 at a concrete two-digit-year date. -/
theorem C3_century_pivot_witness :
    normalizeData ⟨2026, 1, 1⟩ (renderDMy 30 1 1) = some ⟨2030, 1, 1⟩ :=
  C3_century_pivot.1 ⟨2026, 1, 1⟩ 30 1 1 (by decide) (by decide) (by decide)
    (by decide) (by decide)

/-- Claim C4: for textual date input with no year the numeric patterns
fail, any text before the first comma is discarded, a day/month-word
pair is matched and resolved via the month table, and the year is
inferred as the current year unless the resolved month is strictly
smaller than the current month, in which case the next year:
`"20 de outubro"` normalizes to October 20 of the current year exactly
when the current month is at most 10 (e.g. June), and of the next year
when the current month is 11 or 12 (e.g. December). -/
theorem C4_textual_year_inference (today : Date)
    (h1 : 1 ≤ today.year) (h2 : today.year + 1 ≤ 9999) :
    normalizeData today ("20 de outubro")
      = some ⟨if 10 < today.month then today.year + 1 else today.year, 10, 20⟩
  ∧ normalizeData today ("sábado, 20 de outubro")
      = some ⟨if 10 < today.month then today.year + 1 else today.year, 10, 20⟩ := by
  have h31 : daysInMonth
      (if 10 < today.month then today.year + 1 else today.year) 10 = 31 := rfl
  have key : mkDate (if 10 < today.month then today.year + 1 else today.year)
      10 20
      = some ⟨if 10 < today.month then today.year + 1 else today.year, 10, 20⟩ := by
    apply mkDate_eq_some
    refine ⟨?_, ?_, by omega, by omega, by omega, ?_⟩
    · split <;> omega
    · split <;> omega
    · omega
  exact ⟨key, key⟩

/-- Witness for C4: current date June 15 gives October of the same
year; current date December 1 gives October of the next year. -/
theorem C4_textual_year_inference_witness :
    normalizeData ⟨2026, 6, 15⟩ ("20 de outubro") = some ⟨2026, 10, 20⟩
  ∧ normalizeData ⟨2026, 12, 1⟩ ("sábado, 20 de outubro") = some ⟨2027, 10, 20⟩ :=
  ⟨(C4_textual_year_inference ⟨2026, 6, 15⟩ (by decide) (by decide)).1,
   (C4_textual_year_inference ⟨2026, 12, 1⟩ (by decide) (by decide)).2⟩

/-- Claim C9: month-word resolution is by substring containment in the
fixed dictionary order, not exact lookup: `"maisena"` is not a month
name but contains the key `"mai"`, so it resolves to month 5; in
`"outjan"` the entry `"jan"` precedes the entry `"out"` in the
dictionary, so the word resolves to month 1 although `"out"` occurs
first in the word; neither word is itself a key of the table. -/
theorem C9_substring_month_resolution (today : Date)
    (h1 : 1 ≤ today.year) (h2 : today.year + 1 ≤ 9999) :
    normalizeData today ("20 de maisena")
      = some ⟨if 5 < today.month then today.year + 1 else today.year, 5, 20⟩
  ∧ normalizeData today ("20 de outjan")
      = some ⟨if 1 < today.month then today.year + 1 else today.year, 1, 20⟩
  ∧ (∀ kv ∈ meses_pt, kv.1 ≠ (String.toList "maisena")
      ∧ kv.1 ≠ (String.toList "outjan")) := by
  refine ⟨?_, ?_, by decide⟩
  · have h31 : daysInMonth
        (if 5 < today.month then today.year + 1 else today.year) 5 = 31 := rfl
    have key : mkDate (if 5 < today.month then today.year + 1 else today.year)
        5 20
        = some ⟨if 5 < today.month then today.year + 1 else today.year, 5, 20⟩ := by
      apply mkDate_eq_some
      refine ⟨?_, ?_, by omega, by omega, by omega, ?_⟩
      · split <;> omega
      · split <;> omega
      · omega
    exact key
  · have h31 : daysInMonth
        (if 1 < today.month then today.year + 1 else today.year) 1 = 31 := rfl
    have key : mkDate (if 1 < today.month then today.year + 1 else today.year)
        1 20
        = some ⟨if 1 < today.month then today.year + 1 else today.year, 1, 20⟩ := by
      apply mkDate_eq_some
      refine ⟨?_, ?_, by omega, by omega, by omega, ?_⟩
      · split <;> omega
      · split <;> omega
      · omega
    exact key

/-- Witness for C9 at a concrete current date (June 15). -/
theorem C9_substring_month_resolution_witness :
    normalizeData ⟨2026, 6, 15⟩ ("20 de maisena") = some ⟨2027, 5, 20⟩
  ∧ normalizeData ⟨2026, 6, 15⟩ ("20 de outjan") = some ⟨2027, 1, 20⟩ :=
  ⟨(C9_substring_month_resolution ⟨2026, 6, 15⟩ (by decide) (by decide)).1,
   (C9_substring_month_resolution ⟨2026, 6, 15⟩ (by decide) (by decide)).2.1⟩

/-- Claim C10: textual input whose resolved month equals the current
month and whose day is before the current day is given the current
year, producing a date in the past; such a slot is included in the
filter output whenever that date is strictly before the reference
date. -/
theorem C10_past_date_included (today : Date) (hm : today.month = 10)
    (hd : 20 < today.day) (hy1 : 1 ≤ today.year) (hy2 : today.year ≤ 9999) :
    normalizeData today ("20 de outubro") = some ⟨today.year, 10, 20⟩
  ∧ dateLt ⟨today.year, 10, 20⟩ today = true
  ∧ (∀ lim limd hora orig, parseLimite lim = some limd →
      dateLt ⟨today.year, 10, 20⟩ limd = true →
      filtrar_horarios_anteriores today [⟨("20 de outubro"), hora, orig⟩] lim
        = [⟨("20 de outubro"), hora, orig⟩]) := by
  have hdef : normalizeData today ("20 de outubro")
      = mkDate (if 10 < today.month then today.year + 1 else today.year)
          10 20 := rfl
  have hnorm : normalizeData today ("20 de outubro")
      = some ⟨today.year, 10, 20⟩ := by
    rw [hdef, hm]
    have hlt : ¬(10 < 10) := by omega
    rw [if_neg hlt]
    have h31 : daysInMonth today.year 10 = 31 := rfl
    exact mkDate_eq_some ⟨hy1, hy2, by omega, by omega, by omega, by omega⟩
  refine ⟨hnorm, ?_, ?_⟩
  · unfold dateLt
    rw [hm]
    simp [hd]
  · intro lim limd hora orig hlim hdlt
    simp only [filtrar_horarios_anteriores, hlim]
    simp [List.filter_cons, hnorm, hdlt]

/-- Witness for C10: current date October 25, reference October 22. -/
theorem C10_past_date_included_witness :
    filtrar_horarios_anteriores ⟨2026, 10, 25⟩
        [⟨("20 de outubro"), ("09:00"), ("")⟩] ("2026-10-22")
      = [⟨("20 de outubro"), ("09:00"), ("")⟩] :=
  (C10_past_date_included ⟨2026, 10, 25⟩ rfl (by decide) (by decide)
      (by decide)).2.2 ("2026-10-22") ⟨2026, 10, 22⟩ ("09:00") ("")
    (by decide) (by decide)

/-- Witness for C5 at a concrete slot list and reference date. -/
theorem C5_stable_filter_date_only_witness :
    (filtrar_horarios_anteriores ⟨2026, 1, 1⟩
        [⟨("10/03/2026"), ("14:30"), ("")⟩] ("2026-03-11")).Sublist
      [⟨("10/03/2026"), ("14:30"), ("")⟩] :=
  (C5_stable_filter_date_only ⟨2026, 1, 1⟩
    [⟨("10/03/2026"), ("14:30"), ("")⟩] ("2026-03-11") ⟨2026, 3, 11⟩
    (by decide)).1

/-- Witness for C6: dropping the unparseable slot `"amanhã"` leaves the
filter result unchanged. -/
theorem C6_unparseable_slot_dropped_witness :
    filtrar_horarios_anteriores ⟨2026, 1, 1⟩
        ([⟨("10/03/2026"), ("14:30"), ("")⟩] ++ ⟨("amanhã"), ("09:00"), ("")⟩
          :: []) ("2026-03-11")
      = filtrar_horarios_anteriores ⟨2026, 1, 1⟩
        ([⟨("10/03/2026"), ("14:30"), ("")⟩] ++ []) ("2026-03-11") :=
  (C6_unparseable_slot_dropped ⟨2026, 1, 1⟩
    [⟨("10/03/2026"), ("14:30"), ("")⟩] [] ⟨("amanhã"), ("09:00"), ("")⟩
    ("2026-03-11") (by decide)).1

/-- Witness for C8: one run with an invalid destination email, one
valid run with no earlier slot. -/
theorem C8_exit_codes_witness :
    main_run ⟨some ("a@b.com"), some ("pw"), ("not-an-email"),
        ("2026-03-11")⟩ ⟨2026, 1, 1⟩ [] = ⟨1, false, false⟩
  ∧ main_run ⟨some ("a@b.com"), some ("pw"), ("oquealan@gmail.com"),
        ("2026-03-11")⟩ ⟨2026, 1, 1⟩ [] = ⟨0, true, false⟩ :=
  ⟨C8_exit_codes.1 ⟨some ("a@b.com"), some ("pw"), ("not-an-email"),
      ("2026-03-11")⟩ ⟨2026, 1, 1⟩ [] (by decide),
   C8_exit_codes.2 ⟨some ("a@b.com"), some ("pw"), ("oquealan@gmail.com"),
      ("2026-03-11")⟩ ⟨2026, 1, 1⟩ [] (by decide) (by decide)⟩

end RedeDor
